import Mathlib

/-
Verification development for the busy ICS feed generator (src/server.js).

The service fetches a source ICS feed, expands its events over the window
[now, now + 8 weeks), and republishes a sanitized busy/free feed.  The
definitions below are a shallow embedding of the /busy.ics request handler:
times are modelled as integer milliseconds since the Unix epoch (the value
of Date.prototype.getTime), the parsed event map is a list of VEvent
records, and the host process configuration (TZ environment variable,
process-wide local offset, local calendar functions) is an explicit Host
parameter, since the handler reads it.
-/

namespace BusyIcs

/-! ### UTC date formatting

Embedding of the serialization expression
  date.toISOString().replace(/[-:]/g, "").split(".")[0] + "Z"
used for DTSTART, DTEND and DTSTAMP.  toISOString renders the instant in
proleptic-Gregorian UTC; civilFromDays is the standard days-to-civil-date
conversion, valid for every nonnegative day count. -/

def pad2 (n : Nat) : String := if n < 10 then "0" ++ toString n else toString n

def pad4 (n : Nat) : String :=
  if n < 10 then "000" ++ toString n
  else if n < 100 then "00" ++ toString n
  else if n < 1000 then "0" ++ toString n
  else toString n

/-- Convert a count of days since 1970-01-01 to a Gregorian civil date
(year, month 1..12, day 1..31). -/
def civilFromDays (z0 : Nat) : Nat × Nat × Nat :=
  let z := z0 + 719468
  let era := z / 146097
  let doe := z % 146097
  let yoe := (doe - doe / 1460 + doe / 36524 - doe / 146096) / 365
  let y := yoe + era * 400
  let doy := doe - (365 * yoe + yoe / 4 - yoe / 100)
  let mp := (5 * doy + 2) / 153
  let d := doy - (153 * mp + 2) / 5 + 1
  let m := if mp < 10 then mp + 3 else mp - 9
  (if m ≤ 2 then y + 1 else y, m, d)

/-- Format a nonnegative epoch-millisecond instant as the basic ICS UTC
form YYYYMMDDTHHMMSSZ, exactly as the serialization loop in src/server.js
derives it from toISOString. -/
def fmtUtcNat (ms : Nat) : String :=
  let sec := ms / 1000
  let day := sec / 86400
  let sod := sec % 86400
  let c := civilFromDays day
  pad4 c.1 ++ pad2 c.2.1 ++ pad2 c.2.2 ++ "T" ++
    pad2 (sod / 3600) ++ pad2 (sod % 3600 / 60) ++ pad2 (sod % 60) ++ "Z"

def fmtUtc (ms : Int) : String := fmtUtcNat ms.toNat

/-- Month index of an epoch-millisecond instant in UTC, 0-based as in
Date.prototype.getMonth for a host whose local time is UTC. -/
def utcMonthOf (ms : Int) : Nat := (civilFromDays (ms.toNat / 86400000)).2.1 - 1

/-! ### Data model of the request handler -/

/-- The rrule object attached by node-ical to a recurring event.  The
handler only calls rrule.between(now, eightWeeksFromNow, true); we model
that call by its outcome: the list of expanded instants (milliseconds), or
the message of the exception it throws. -/
structure RRuleObj where
  between : Except String (List Int)

/-- A parsed event, one value of the object returned by
ical.async.parseICS.  key is the property name the event is stored under
in that object (the event UID).  start and end_ embed event.start and
event.end as epoch milliseconds (getTime), startTz embeds event.start.tz.
The private fields summary, description, location and attendees are
carried so that we can state that the busy feed never depends on them. -/
structure VEvent where
  key : String
  isVevent : Bool
  rrule : Option RRuleObj
  start : Option Int
  startTz : Option String
  end_ : Option Int
  summary : Option String
  description : Option String
  location : Option String
  attendees : List String

/-- Host process configuration read by the handler: tzEnvIsUTC embeds the
test process.env.TZ === "UTC", tzOffsetNow embeds
new Date().getTimezoneOffset(), monthOf embeds Date.prototype.getMonth
under the host local timezone, and dateToString embeds
Date.prototype.toString (the host-local rendering used for
X-ORIGINAL-START). -/
structure Host where
  tzEnvIsUTC : Bool
  tzOffsetNow : Int
  monthOf : Int → Nat
  dateToString : Int → String

/-- A materialized busy block: absolute start and end instants
(milliseconds) and the uid string pushed by the handler. -/
structure BusyBlock where
  start : Int
  end_ : Int
  uid : String
deriving DecidableEq, Repr

/-! ### The /busy.ics expansion loop (src/server.js lines 67-132) -/

/-- Number of milliseconds in the 8-week query window:
8 * 7 * 24 * 60 * 60 * 1000. -/
def eightWeeksMs : Int := 8 * 7 * 24 * 60 * 60 * 1000

/-- The timezone compensation of src/server.js lines 88-101: when the
process runs with TZ=UTC or a zero local offset and the event start
carries tz Europe/Berlin, add 2 hours for host-local months March..October
(getMonth between 2 and 9) and 1 hour otherwise; otherwise keep the
instant returned by rrule.between unchanged. -/
def correctedStart (h : Host) (ev : VEvent) (date : Int) : Int :=
  if (h.tzEnvIsUTC || h.tzOffsetNow == 0) &&
      (ev.start.isSome && ev.startTz == some "Europe/Berlin") then
    let month := h.monthOf date
    let isSummerTime := decide (2 ≤ month) && decide (month ≤ 9)
    let hoursToAdd : Int := if isSummerTime then 2 else 1
    date + hoursToAdd * 3600000
  else date

/-- Occurrence duration for the recurring branch (line 82):
event.end ? event.end.getTime() - event.start.getTime() : 3600000.
Only evaluated when end_ present implies start present; the remaining
JS TypeError case is handled in processRecurring. -/
def recDuration (ev : VEvent) : Int :=
  match ev.end_, ev.start with
  | some e, some s => e - s
  | _, _ => 3600000

/-- One busy block pushed for one expanded instant of a recurring event
(lines 103-109). -/
def mkRecurringBlock (h : Host) (ev : VEvent) (date : Int) : BusyBlock :=
  let startDate := correctedStart h ev date
  { start := startDate
    end_ := startDate + recDuration ev
    uid := ev.key ++ "-" ++ toString startDate }

/-- The recurring branch (lines 77-113), including the try/catch.  An
exception from rrule.between, or the TypeError raised by the duration
expression when event.end is present but event.start is absent, is caught:
the event contributes no blocks and one logged error. -/
def processRecurring (h : Host) (ev : VEvent) (r : RRuleObj) :
    List BusyBlock × List String :=
  match r.between with
  | .error msg => ([], [msg])
  | .ok dates =>
    if ev.end_.isSome && ev.start.isNone && !dates.isEmpty then
      ([], ["TypeError: event.start is undefined"])
    else (dates.map (mkRecurringBlock h ev), [])

/-- The single-event branch (lines 114-127): endDate falls back to the
start when event.end is absent, and the block is kept only when
endDate > now and startDate < eightWeeksFromNow. -/
def processSingle (now weeksEnd : Int) (ev : VEvent) :
    List BusyBlock × List String :=
  match ev.start with
  | some s =>
    let endDate := ev.end_.getD s
    if endDate > now ∧ s < weeksEnd then
      ([{ start := s, end_ := endDate, uid := ev.key }], [])
    else ([], [])
  | none => ([], [])

/-- Processing of one entry of the parsed event map: blocks pushed and
errors logged for it. -/
def processVevent (h : Host) (now weeksEnd : Int) (ev : VEvent) :
    List BusyBlock × List String :=
  if ev.isVevent then
    match ev.rrule with
    | some r => processRecurring h ev r
    | none => processSingle now weeksEnd ev
  else ([], [])

/-- The loop over Object.entries(events) (lines 74-129), accumulating
busy blocks and logged errors in order. -/
def processEvents (h : Host) (now weeksEnd : Int) :
    List VEvent → List BusyBlock × List String
  | [] => ([], [])
  | ev :: rest =>
    let p := processVevent h now weeksEnd ev
    let q := processEvents h now weeksEnd rest
    (p.1 ++ q.1, p.2 ++ q.2)

/-- Comparison used by busyBlocks.sort((a, b) => a.start - b.start). -/
def blockLE (a b : BusyBlock) : Prop := a.start ≤ b.start

instance : DecidableRel blockLE :=
  fun a b => inferInstanceAs (Decidable (a.start ≤ b.start))

instance : IsTotal BusyBlock blockLE := ⟨fun a b => Int.le_total a.start b.start⟩

instance : IsTrans BusyBlock blockLE := ⟨fun _ _ _ hab hbc => le_trans hab hbc⟩

/-- The stable ascending sort of line 132. -/
def sortBlocks (bs : List BusyBlock) : List BusyBlock := List.insertionSort blockLE bs

/-- The busy blocks the handler serializes for a given host, current time
and parsed event list: expansion over [now, now + 8 weeks), then sort. -/
def busyBlocksOf (h : Host) (now : Int) (evs : List VEvent) : List BusyBlock :=
  sortBlocks (processEvents h now (now + eightWeeksMs) evs).1

/-- The per-event error log produced while building the feed. -/
def feedErrors (h : Host) (now : Int) (evs : List VEvent) : List String :=
  (processEvents h now (now + eightWeeksMs) evs).2

/-! ### Serialization (lines 58-152) -/

/-- The fixed VCALENDAR header lines. -/
def headerLines : List String :=
  ["BEGIN:VCALENDAR", "VERSION:2.0", "PRODID:-//Busy ICS Proxy//EN",
   "CALSCALE:GREGORIAN", "METHOD:PUBLISH", "X-WR-CALNAME:Busy Calendar",
   "X-WR-TIMEZONE:Europe/Berlin"]

/-- The VEVENT entry serialized for one busy block (lines 135-150).
idx is the running eventCount; dtstampMs is the generation time read by
new Date() in the DTSTAMP line. -/
def veventLines (h : Host) (dtstampMs : Int) (idx : Nat) (b : BusyBlock) :
    List String :=
  ["BEGIN:VEVENT",
   "UID:busy-" ++ toString idx ++ "-" ++ b.uid ++ "@busy-proxy",
   "DTSTAMP:" ++ fmtUtc dtstampMs,
   "DTSTART:" ++ fmtUtc b.start,
   "DTEND:" ++ fmtUtc b.end_,
   "SUMMARY:Busy",
   "TRANSP:OPAQUE",
   "CLASS:PRIVATE",
   "STATUS:CONFIRMED",
   "X-ORIGINAL-START:" ++ h.dateToString b.start,
   "END:VEVENT"]

/-- All lines of the generated busy feed, in order. -/
def feedLines (h : Host) (now dtstampMs : Int) (evs : List VEvent) :
    List String :=
  headerLines ++
    ((busyBlocksOf h now evs).enum.flatMap fun p => veventLines h dtstampMs p.1 p.2) ++
    ["END:VCALENDAR"]

/-- The feed document as one string; every line is terminated by CRLF as
in the string concatenation of src/server.js. -/
def icsText (lines : List String) : String :=
  String.join (lines.map (fun l => l ++ "\r\n"))

/-! ### The surrounding request handler (fetch and error paths) -/

/-- Outcome of the one fetch(sourceUrl) call: a resolved response with its
ok flag (status in the 2xx range) and body text, or a rejected promise. -/
inductive FetchOutcome
| success (ok : Bool) (body : String)
| networkFailure

structure HttpResponse where
  status : Nat
  body : String
deriving DecidableEq

/-- The /busy.ics handler (lines 38-163).  fetches is the oracle of
outcomes successive fetch calls would produce; the handler performs exactly
one fetch, so only the head is ever consulted.  parse embeds
ical.async.parseICS.  A missing URL yields 400; a rejected fetch or a
non-2xx response reaches the catch block, which yields 500 with the fixed
error body and no feed. -/
def busyHandler (h : Host) (now dtstampMs : Int) (sourceUrl : Option String)
    (fetches : List FetchOutcome) (parse : String → List VEvent) :
    HttpResponse :=
  match sourceUrl with
  | none => ⟨400, "Missing source ICS URL"⟩
  | some _ =>
    match fetches.head? with
    | none => ⟨500, "Error generating busy calendar"⟩
    | some .networkFailure => ⟨500, "Error generating busy calendar"⟩
    | some (.success false _) => ⟨500, "Error generating busy calendar"⟩
    | some (.success true body) =>
      ⟨200, icsText (feedLines h now dtstampMs (parse body))⟩

/-- Half-open overlap between the effective event interval [s, e] and the
query window [wS, wE): the inclusion test of src/server.js line 120. -/
def overlapsWindow (s e wS wE : Int) : Prop := e > wS ∧ s < wE

instance (s e wS wE : Int) : Decidable (overlapsWindow s e wS wE) :=
  inferInstanceAs (Decidable (_ ∧ _))

/-- Erasure of all private event content that the sanitized feed must not
expose: summary, description, location and attendees. -/
def scrub (ev : VEvent) : VEvent :=
  { ev with summary := none, description := none, location := none,
            attendees := [] }

/-- The property lines that may occur in the generated feed: the fixed
calendar framing and fixed VEVENT lines, and the value-carrying lines
with their fixed property names. -/
def isAllowedLine (line : String) : Prop :=
  line ∈ headerLines ∨ line = "BEGIN:VEVENT" ∨ line = "END:VEVENT" ∨
  line = "END:VCALENDAR" ∨ line = "SUMMARY:Busy" ∨ line = "TRANSP:OPAQUE" ∨
  line = "CLASS:PRIVATE" ∨ line = "STATUS:CONFIRMED" ∨
  (∃ r, line = "UID:busy-" ++ r) ∨ (∃ r, line = "DTSTAMP:" ++ r) ∨
  (∃ r, line = "DTSTART:" ++ r) ∨ (∃ r, line = "DTEND:" ++ r) ∨
  (∃ r, line = "X-ORIGINAL-START:" ++ r)

/-! ### Spec-level recurrence core

The specification describes a standalone Timezone Rule Resolver (section
4.1) and Recurrence Expander (section 4.2); the repository only contains
the heuristic request handler above, so the core is modelled from the
specification here, restricted to what the concrete scenario uses. -/

/-- A busy occurrence produced by the spec-level expander: absolute UTC
start and end instants in epoch milliseconds (stop embeds the end
instant). -/
structure SpecBlock where
  start : Int
  stop : Int
deriving DecidableEq, Repr

/-- Modelled from the spec: the Timezone Rule Resolver of section 4.1 for
Europe/Berlin, with coverage the calendar year 2025, built from the
VTIMEZONE transitions in the test file src/unnamed/part_000.  The
argument is a wall-clock instant in naive local coordinates
(milliseconds).  CEST (+02:00) is in effect from the 2025 daylight
transition (wall clock 2025-03-30 02:00) up to the 2025 standard
transition (wall clock 2025-10-26 03:00); CET (+01:00) otherwise.  The
half-open wall-clock interval realizes both documented tie-breaks: a gap
instant maps to the offset after the spring transition, an overlap
instant to the offset before the autumn one. -/
def berlinOffsetMsAtWall (w : Int) : Int :=
  if 1743300000000 ≤ w ∧ w < 1761447600000 then 7200000 else 3600000

/-- Modelled from the spec: the Recurrence Expander of section 4.2
specialized to FREQ=WEEKLY with a Europe/Berlin anchor.  Candidate
wall-clock start times are weekly repetitions of the anchor wall-clock
time; each candidate is converted to UTC using the resolver at that
wall-clock instant; the end is start plus the constant duration; and
candidates whose interval does not overlap the half-open window
[winFrom, winTo) are dropped. -/
def expandWeeklyBerlin (anchorWall durMs winFrom winTo : Int) : List SpecBlock :=
  let n := ((winTo - anchorWall) / 604800000).toNat + 2
  (List.range n).filterMap fun k =>
    let wall := anchorWall + (k : Int) * 604800000
    let st := wall - berlinOffsetMsAtWall wall
    if st < winTo ∧ st + durMs > winFrom then some ⟨st, st + durMs⟩ else none

/-! ### Concrete fixtures used by witnesses and counterexamples -/

/-- Host whose process runs with TZ=UTC: zero current offset, UTC month
lookup and UTC rendering. -/
def hostUTC : Host :=
  { tzEnvIsUTC := true, tzOffsetNow := 0,
    monthOf := utcMonthOf, dateToString := fmtUtc }

/-- Host in a UTC+2 timezone: getTimezoneOffset returns -120, and the
local month lookup and local rendering are shifted by two hours. -/
def hostPlus2 : Host :=
  { tzEnvIsUTC := false, tzOffsetNow := -120,
    monthOf := fun ms => utcMonthOf (ms + 7200000),
    dateToString := fun ms => fmtUtc (ms + 7200000) }

/-- The weekly Europe/Berlin event of the test file src/unnamed/part_000:
UID TEST123, anchored 2025-08-07 08:00 Europe/Berlin (06:00:00Z,
1754546400000 ms), one hour long.  Its rrule carries the instant
rrule.between returns for the window of that test when the process runs
in UTC: 2025-09-25 04:00:00Z (1758772800000 ms), two hours short of the
correct occurrence instant. -/
def berlinEvent : VEvent :=
  { key := "TEST123", isVevent := true,
    rrule := some ⟨.ok [1758772800000]⟩,
    start := some 1754546400000, startTz := some "Europe/Berlin",
    end_ := some 1754550000000,
    summary := some "Test Event", description := none, location := none,
    attendees := [] }

/-- A plain timed event with private content, used as concrete input. -/
def singleEvent : VEvent :=
  { key := "SINGLE1", isVevent := true, rrule := none,
    start := some 100, startTz := none, end_ := some 200,
    summary := some "Dentist", description := some "checkup",
    location := some "Main St", attendees := ["alice", "bob"] }

/-- A timed event without an end. -/
def singleNoEnd : VEvent :=
  { singleEvent with key := "NOEND1", end_ := none }

/-- A recurring event without an end. -/
def recNoEnd : VEvent :=
  { key := "RNE", isVevent := true, rrule := some ⟨.ok [500]⟩,
    start := some 0, startTz := none, end_ := none,
    summary := none, description := none, location := none, attendees := [] }

/-- A recurring event whose rule expansion throws. -/
def badRec : VEvent :=
  { key := "BAD", isVevent := true,
    rrule := some ⟨.error "InvalidRecurrenceRule"⟩,
    start := some 0, startTz := none, end_ := none,
    summary := none, description := none, location := none, attendees := [] }

/-! ### Theorems -/

/-- C2: a FREQ=WEEKLY rule anchored at wall-clock 08:00 Europe/Berlin on
2025-08-07 (wall coordinate 1754553600000) with one-hour duration,
expanded over the window from 2025-09-24T00:00Z to 2025-09-26T00:00Z,
yields exactly one occurrence, and its start instant is
2025-09-25T06:00:00Z, instant 1758780000000 (Berlin is CEST, UTC+2, in
September). -/
theorem expandWeekly_berlin_sep2025_one_occurrence :
    expandWeeklyBerlin 1754553600000 3600000 1758672000000 1758844800000 =
      [⟨1758780000000, 1758783600000⟩] ∧
    fmtUtc 1758780000000 = "20250925T060000Z" := by
  decide

/-- C1: the generated feed depends on the host timezone configuration.
With the same parsed event set (the TEST123 Europe/Berlin weekly event
with the same expanded instant) and the same clock, the feed produced
under a TZ=UTC host differs from the feed produced under a UTC+2 host:
the compensation of src/server.js lines 88-101 shifts DTSTART by two
hours only in the first run.  This refutes byte-identical
host-timezone independence. -/
theorem feed_differs_across_host_timezones :
    feedLines hostUTC 1758672000000 1758672000000 [berlinEvent] ≠
      feedLines hostPlus2 1758672000000 1758672000000 [berlinEvent] := by
  decide

/-- C8: the sequence of busy blocks the handler serializes is ordered
non-decreasingly by start instant, for every host, current time and
parsed event list. -/
theorem busyBlocks_sorted_by_start (h : Host) (now : Int) (evs : List VEvent) :
    List.Sorted blockLE (busyBlocksOf h now evs) :=
  List.sorted_insertionSort blockLE _

/-- C4: a VEVENT that has a start and no recurrence rule contributes
exactly one busy block when its effective interval overlaps the query
window, and none otherwise. -/
theorem single_event_block_iff_overlap (h : Host) (now wEnd : Int)
    (ev : VEvent) (s : Int) (hv : ev.isVevent = true) (hr : ev.rrule = none)
    (hs : ev.start = some s) :
    (overlapsWindow s (ev.end_.getD s) now wEnd →
      (processVevent h now wEnd ev).1.length = 1) ∧
    (¬ overlapsWindow s (ev.end_.getD s) now wEnd →
      (processVevent h now wEnd ev).1 = []) := by
  simp only [processVevent, hv, hr, hs, if_true, processSingle, overlapsWindow]
  constructor <;> intro hov
  · rw [if_pos hov]; rfl
  · rw [if_neg hov]

/-- Witness for C4 at a concrete input: the singleEvent fixture overlaps
the window [0, 1000) and contributes exactly one block. -/
theorem single_event_block_iff_overlap_witness :
    (processVevent hostUTC 0 1000 singleEvent).1.length = 1 :=
  (single_event_block_iff_overlap hostUTC 0 1000 singleEvent 100
    rfl rfl rfl).1 (by decide)

/-- C5 counterexample: in the single-event branch an absent end falls
back to the start (src/server.js line 117), so the produced block has
zero duration, not the one-hour default: the claim fails at the
singleNoEnd fixture. -/
theorem single_no_end_zero_duration :
    (processVevent hostUTC 0 1000 singleNoEnd).1 =
      [{ start := 100, end_ := 100, uid := "NOEND1" }] ∧
    ({ start := 100, end_ := 100, uid := "NOEND1" } : BusyBlock).end_ ≠
      ({ start := 100, end_ := 100, uid := "NOEND1" } : BusyBlock).start +
        3600000 := by
  decide

/-- C5 amended: when the event end is absent, occurrences from the
recurring branch get the one-hour default duration (line 82), while the
single-event branch falls back to end = start, producing a zero-length
block (line 117). -/
theorem missing_end_durations (h : Host) (now wEnd : Int) (ev : VEvent)
    (he : ev.end_ = none) :
    (∀ r, ev.rrule = some r → ∀ b ∈ (processVevent h now wEnd ev).1,
      b.end_ = b.start + 3600000) ∧
    (ev.rrule = none → ∀ b ∈ (processVevent h now wEnd ev).1,
      b.end_ = b.start) := by
  constructor
  · intro r hr b hb
    by_cases hv : ev.isVevent = true
    · cases hbet : r.between with
      | error msg =>
        simp [processVevent, hv, hr, processRecurring, hbet] at hb
      | ok dates =>
        simp [processVevent, hv, hr, processRecurring, hbet, he] at hb
        obtain ⟨d, _, hd⟩ := hb
        subst hd
        simp [mkRecurringBlock, recDuration, he]
    · simp [processVevent, hv] at hb
  · intro hr b hb
    by_cases hv : ev.isVevent = true
    · cases hstart : ev.start with
      | none =>
        simp [processVevent, hv, hr, processSingle, hstart] at hb
      | some s =>
        by_cases hc : s > now ∧ s < wEnd
        · simp [processVevent, hv, hr, processSingle, hstart, he, hc] at hb
          rw [hb]
        · simp [processVevent, hv, hr, processSingle, hstart, he, hc] at hb
    · simp [processVevent, hv] at hb

/-- Witness for C5 amended: the recNoEnd fixture yields a block ending
exactly one hour after its start. -/
theorem missing_end_durations_witness :
    ({ start := 500, end_ := 3600500, uid := "RNE-500" } : BusyBlock).end_ =
      ({ start := 500, end_ := 3600500, uid := "RNE-500" } : BusyBlock).start +
        3600000 :=
  (missing_end_durations hostUTC 0 1000 recNoEnd rfl).1 ⟨.ok [500]⟩ rfl
    { start := 500, end_ := 3600500, uid := "RNE-500" } (by decide)

/-- C7: when the single fetch of the source feed rejects or resolves with
a non-2xx status, the whole request fails with HTTP 500 and the fixed
error body instead of a feed, and the handler result does not depend on
any later fetch outcome (the fetch is not retried). -/
theorem fetch_failure_fails_request (h : Host) (now dt : Int) (url : String)
    (f : FetchOutcome) (rest rest2 : List FetchOutcome)
    (parse : String → List VEvent)
    (hf : f = FetchOutcome.networkFailure ∨
      ∃ b, f = FetchOutcome.success false b) :
    busyHandler h now dt (some url) (f :: rest) parse =
      ⟨500, "Error generating busy calendar"⟩ ∧
    busyHandler h now dt (some url) (f :: rest) parse =
      busyHandler h now dt (some url) (f :: rest2) parse := by
  constructor
  · rcases hf with hf | ⟨b, hf⟩ <;> subst hf <;> rfl
  · cases f with
    | networkFailure => rfl
    | success ok body => cases ok <;> rfl

/-- Witness for C7 at a concrete input: a rejected fetch yields the 500
error response. -/
theorem fetch_failure_fails_request_witness :
    busyHandler hostUTC 0 0 (some "https://example.org/cal.ics")
      [FetchOutcome.networkFailure] (fun _ => []) =
      ⟨500, "Error generating busy calendar"⟩ :=
  (fetch_failure_fails_request hostUTC 0 0 "https://example.org/cal.ics"
    FetchOutcome.networkFailure [] [] (fun _ => []) (Or.inl rfl)).1

/-- Processing an event with the private fields erased gives the same
blocks and errors: the expansion loop never reads summary, description,
location or attendees. -/
theorem processVevent_scrub (h : Host) (now w : Int) (ev : VEvent) :
    processVevent h now w (scrub ev) = processVevent h now w ev := rfl

/-- Scrubbing the whole parsed event list leaves the expansion result
unchanged. -/
theorem processEvents_scrub (h : Host) (now w : Int) (evs : List VEvent) :
    processEvents h now w (evs.map scrub) = processEvents h now w evs := by
  induction evs with
  | nil => rfl
  | cons e rest ih => simp [processEvents, processVevent_scrub, ih]

/-- Every line of a serialized VEVENT entry is one of the allowed
property lines. -/
theorem veventLines_allowed (h : Host) (dt : Int) (i : Nat) (b : BusyBlock) :
    ∀ line ∈ veventLines h dt i b, isAllowedLine line := by
  intro line hl
  simp only [veventLines, List.mem_cons, List.not_mem_nil, or_false] at hl
  unfold isAllowedLine
  rcases hl with rfl | rfl | rfl | rfl | rfl | rfl | rfl | rfl | rfl | rfl | rfl
  · exact Or.inr (Or.inl rfl)
  · refine Or.inr (Or.inr (Or.inr (Or.inr (Or.inr (Or.inr (Or.inr (Or.inr
      (Or.inl ⟨toString i ++ "-" ++ b.uid ++ "@busy-proxy", ?_⟩))))))))
    simp [String.append_assoc]
  · refine Or.inr (Or.inr (Or.inr (Or.inr (Or.inr (Or.inr (Or.inr (Or.inr
      (Or.inr (Or.inl ⟨fmtUtc dt, rfl⟩)))))))))
  · refine Or.inr (Or.inr (Or.inr (Or.inr (Or.inr (Or.inr (Or.inr (Or.inr
      (Or.inr (Or.inr (Or.inl ⟨fmtUtc b.start, rfl⟩))))))))))
  · refine Or.inr (Or.inr (Or.inr (Or.inr (Or.inr (Or.inr (Or.inr (Or.inr
      (Or.inr (Or.inr (Or.inr (Or.inl ⟨fmtUtc b.end_, rfl⟩)))))))))))
  · exact Or.inr (Or.inr (Or.inr (Or.inr (Or.inl rfl))))
  · exact Or.inr (Or.inr (Or.inr (Or.inr (Or.inr (Or.inl rfl)))))
  · exact Or.inr (Or.inr (Or.inr (Or.inr (Or.inr (Or.inr (Or.inl rfl))))))
  · exact Or.inr (Or.inr (Or.inr (Or.inr (Or.inr (Or.inr (Or.inr
      (Or.inl rfl)))))))
  · exact Or.inr (Or.inr (Or.inr (Or.inr (Or.inr (Or.inr (Or.inr (Or.inr
      (Or.inr (Or.inr (Or.inr (Or.inr
        ⟨h.dateToString b.start, rfl⟩)))))))))))
  · exact Or.inr (Or.inr (Or.inl rfl))

/-- C3 counterexample: the serialization loop of src/server.js lines
135-150 also emits STATUS:CONFIRMED and X-ORIGINAL-START, two property
lines outside the set the claim allows, already for the plain
singleEvent fixture. -/
theorem extra_vevent_properties_emitted :
    "STATUS:CONFIRMED" ∈ feedLines hostUTC 0 0 [singleEvent] ∧
    ("X-ORIGINAL-START:" ++ fmtUtc 100) ∈ feedLines hostUTC 0 0 [singleEvent] := by
  decide

/-- C3 amended: every line of the generated feed is either calendar
framing or one of the VEVENT property lines UID, DTSTAMP, DTSTART, DTEND,
SUMMARY:Busy, TRANSP:OPAQUE, CLASS:PRIVATE, STATUS:CONFIRMED or
X-ORIGINAL-START; and the feed is unchanged when every event is stripped
of its summary, description, location and attendees, so no original
private data ever reaches the output. -/
theorem feed_allowed_lines_and_private_free (h : Host) (now dt : Int)
    (evs : List VEvent) :
    (∀ line ∈ feedLines h now dt evs, isAllowedLine line) ∧
    feedLines h now dt evs = feedLines h now dt (evs.map scrub) := by
  constructor
  · intro line hline
    simp only [feedLines, List.mem_append, List.mem_flatMap,
      List.mem_singleton] at hline
    rcases hline with (hline | ⟨p, _, hline⟩) | hline
    · exact Or.inl hline
    · exact veventLines_allowed h dt p.1 p.2 line hline
    · subst hline
      exact Or.inr (Or.inr (Or.inr (Or.inl rfl)))
  · simp [feedLines, busyBlocksOf, processEvents_scrub]

/-- Witness for C3 amended at a concrete input. -/
theorem feed_allowed_lines_and_private_free_witness :
    isAllowedLine "SUMMARY:Busy" ∧
    feedLines hostUTC 0 0 [singleEvent] =
      feedLines hostUTC 0 0 ([singleEvent].map scrub) :=
  ⟨(feed_allowed_lines_and_private_free hostUTC 0 0 [singleEvent]).1
      "SUMMARY:Busy" (by decide),
    (feed_allowed_lines_and_private_free hostUTC 0 0 [singleEvent]).2⟩

/-- Expansion distributes over concatenation of the event list. -/
theorem processEvents_append (h : Host) (now w : Int) (l1 l2 : List VEvent) :
    processEvents h now w (l1 ++ l2) =
      ((processEvents h now w l1).1 ++ (processEvents h now w l2).1,
        (processEvents h now w l1).2 ++ (processEvents h now w l2).2) := by
  induction l1 with
  | nil => simp [processEvents]
  | cons e rest ih => simp [processEvents, ih]

/-- C6: an event whose rule expansion throws contributes no busy blocks,
its error message is logged, and the generated feed is exactly the feed
of the remaining events: one bad event never aborts the whole feed. -/
theorem bad_rule_event_skipped (h : Host) (now dt : Int) (ev : VEvent)
    (r : RRuleObj) (msg : String) (es1 es2 : List VEvent)
    (hv : ev.isVevent = true) (hr : ev.rrule = some r)
    (hb : r.between = .error msg) :
    processVevent h now (now + eightWeeksMs) ev = ([], [msg]) ∧
    msg ∈ feedErrors h now (es1 ++ ev :: es2) ∧
    feedLines h now dt (es1 ++ ev :: es2) = feedLines h now dt (es1 ++ es2) := by
  have hpv : processVevent h now (now + eightWeeksMs) ev = ([], [msg]) := by
    simp [processVevent, hv, hr, processRecurring, hb]
  refine ⟨hpv, ?_, ?_⟩
  · have h1 := processEvents_append h now (now + eightWeeksMs) es1 (ev :: es2)
    simp [feedErrors, h1, processEvents, hpv]
  · have h1 := processEvents_append h now (now + eightWeeksMs) es1 (ev :: es2)
    have h2 := processEvents_append h now (now + eightWeeksMs) es1 es2
    simp [feedLines, busyBlocksOf, h1, h2, processEvents, hpv]

/-- Witness for C6 at a concrete input: the badRec fixture is skipped
with its error logged while singleEvent and berlinEvent are processed. -/
theorem bad_rule_event_skipped_witness :
    "InvalidRecurrenceRule" ∈
      feedErrors hostUTC 0 ([singleEvent] ++ badRec :: [berlinEvent]) :=
  (bad_rule_event_skipped hostUTC 0 0 badRec
    ⟨.error "InvalidRecurrenceRule"⟩ "InvalidRecurrenceRule"
    [singleEvent] [berlinEvent] rfl rfl rfl).2.1

/-- C9: the UID serialized for a busy block is
busy-(counter)-(u)@busy-proxy where u is the source map key for a single
event and the source map key with a start-millisecond suffix for a
recurring occurrence; in both shapes the original event identifier
appears verbatim inside the published line. -/
theorem published_uid_carries_source_key (h : Host) (now dt : Int)
    (ev : VEvent) (s d : Int) (r : RRuleObj) (hv : ev.isVevent = true)
    (hs : ev.start = some s) :
    (ev.rrule = none →
      overlapsWindow s (ev.end_.getD s) now (now + eightWeeksMs) →
      ("UID:busy-" ++ toString 0 ++ "-" ++ ev.key ++ "@busy-proxy") ∈
        feedLines h now dt [ev] ∧
      ∃ pre post,
        ("UID:busy-" ++ toString 0 ++ "-" ++ ev.key ++ "@busy-proxy") =
          pre ++ ev.key ++ post) ∧
    (ev.rrule = some r → r.between = .ok [d] →
      ("UID:busy-" ++ toString 0 ++ "-" ++
          (ev.key ++ "-" ++ toString (correctedStart h ev d)) ++
          "@busy-proxy") ∈ feedLines h now dt [ev] ∧
      ∃ pre post,
        ("UID:busy-" ++ toString 0 ++ "-" ++
            (ev.key ++ "-" ++ toString (correctedStart h ev d)) ++
            "@busy-proxy") = pre ++ ev.key ++ post) := by
  constructor
  · intro hr hov
    have hc : ev.end_.getD s > now ∧ s < now + eightWeeksMs := hov
    constructor
    · simp [feedLines, busyBlocksOf, processEvents, processVevent, hv, hr,
        processSingle, hs, hc.1, hc.2, sortBlocks, List.insertionSort,
        veventLines, headerLines]
    · exact ⟨"UID:busy-" ++ toString 0 ++ "-", "@busy-proxy", rfl⟩
  · intro hr hb
    constructor
    · simp [feedLines, busyBlocksOf, processEvents, processVevent, hv, hr,
        processRecurring, hb, hs, mkRecurringBlock, sortBlocks,
        List.insertionSort, veventLines, headerLines]
    · refine ⟨"UID:busy-" ++ toString 0 ++ "-", "-" ++
        toString (correctedStart h ev d) ++ "@busy-proxy", ?_⟩
      simp [String.append_assoc]

/-- Witness for C9 at a concrete input: the TEST123 key of the recurring
fixture appears verbatim in the published UID line. -/
theorem published_uid_carries_source_key_witness :
    ("UID:busy-" ++ toString 0 ++ "-" ++
        ("TEST123" ++ "-" ++ toString (correctedStart hostUTC berlinEvent
          1758772800000)) ++ "@busy-proxy") ∈
      feedLines hostUTC 1758672000000 1758672000000 [berlinEvent] :=
  ((published_uid_carries_source_key hostUTC 1758672000000 1758672000000
    berlinEvent 1754546400000 1758772800000 ⟨.ok [1758772800000]⟩
    rfl rfl).2 rfl rfl).1

/-- C10: characterization of the timezone compensation of src/server.js
lines 88-101 on the start instants of the blocks of a recurring event:
the library instant is shifted only when the process runs with TZ=UTC or
a zero current offset and the anchor timezone is exactly Europe/Berlin,
by two hours when the host-local month of the instant is March through
October and one hour otherwise; under every other host configuration or
anchor timezone the instant is emitted unchanged. -/
theorem berlin_heuristic_start_instants (h : Host) (now : Int) (ev : VEvent)
    (r : RRuleObj) (s d : Int) (hv : ev.isVevent = true)
    (hr : ev.rrule = some r) (hb : r.between = .ok [d])
    (hs : ev.start = some s) :
    (h.tzEnvIsUTC = false → h.tzOffsetNow ≠ 0 →
      (processVevent h now (now + eightWeeksMs) ev).1.map BusyBlock.start
        = [d]) ∧
    (ev.startTz ≠ some "Europe/Berlin" →
      (processVevent h now (now + eightWeeksMs) ev).1.map BusyBlock.start
        = [d]) ∧
    ((h.tzEnvIsUTC = true ∨ h.tzOffsetNow = 0) →
      ev.startTz = some "Europe/Berlin" →
      2 ≤ h.monthOf d → h.monthOf d ≤ 9 →
      (processVevent h now (now + eightWeeksMs) ev).1.map BusyBlock.start
        = [d + 2 * 3600000]) ∧
    ((h.tzEnvIsUTC = true ∨ h.tzOffsetNow = 0) →
      ev.startTz = some "Europe/Berlin" →
      ¬ (2 ≤ h.monthOf d ∧ h.monthOf d ≤ 9) →
      (processVevent h now (now + eightWeeksMs) ev).1.map BusyBlock.start
        = [d + 1 * 3600000]) := by
  have hblocks : (processVevent h now (now + eightWeeksMs) ev).1 =
      [mkRecurringBlock h ev d] := by
    simp [processVevent, hv, hr, processRecurring, hb, hs]
  rw [hblocks]
  refine ⟨?_, ?_, ?_, ?_⟩
  · intro h1 h2
    simp [mkRecurringBlock, correctedStart, h1, h2]
  · intro htz
    simp [mkRecurringBlock, correctedStart, htz]
  · rintro (hc | hc) htz hm1 hm2 <;>
      simp [mkRecurringBlock, correctedStart, hc, htz, hs, hm1, hm2]
  · rintro (hc | hc) htz hm
    · rcases not_and_or.mp hm with hA | hB
      · simp [mkRecurringBlock, correctedStart, hc, htz, hs, hA]
      · simp [mkRecurringBlock, correctedStart, hc, htz, hs, hB]
    · rcases not_and_or.mp hm with hA | hB
      · simp [mkRecurringBlock, correctedStart, hc, htz, hs, hA]
      · simp [mkRecurringBlock, correctedStart, hc, htz, hs, hB]

/-- Witness for C10 at a concrete input: under the TZ=UTC host the
September instant of the Berlin fixture is shifted by exactly two
hours. -/
theorem berlin_heuristic_start_instants_witness :
    (processVevent hostUTC 1758672000000 (1758672000000 + eightWeeksMs)
        berlinEvent).1.map BusyBlock.start = [1758772800000 + 2 * 3600000] :=
  (berlin_heuristic_start_instants hostUTC 1758672000000 berlinEvent
    ⟨.ok [1758772800000]⟩ 1754546400000 1758772800000 rfl rfl rfl rfl).2.2.1
    (Or.inl rfl) rfl (by decide) (by decide)

end BusyIcs
